import Mathlib

/-!
Verification of the bckstage_bot repository's matching / card-game /
guided-flow core against its natural-language specification.

The Python sources are shallowly embedded:
* src/game.py      — card engine (deck, draw, hand valuation, dealer policy);
* src/db.py        — matching store (tinder_swipes / tinder_matches),
                     candidate selection, blackjack session persistence;
* src/handlers.py  — blackjack round orchestration (bet placement, hit /
                     stand / double, outcome resolution) and profile-builder
                     age step.

Machine integers are modelled by Nat / Int (Python ints are unbounded, so no
wrap-around is needed); fallible operations return Except / Option; SQLite
tables are lists of rows, with the exact constraints the schema declares.
-/

namespace BckstageBot

/-! ## Card engine (src/game.py)

A card is a string such as "AS" or "10H"; game.py extracts the rank as
`card[:-1]` and the suit as the final character. -/

abbrev Card := String

/-- `card[:-1]` — the rank portion of a card string (game.py line 31),
viewed as its character list so that concrete hands evaluate by kernel
reduction. -/
def rankOf (card : Card) : List Char := card.toList.dropLast

/-- Python `int(rank)` on a decimal-digit rank string ("2" .. "10").  In the
source, `int` on a non-digit rank would raise `ValueError`; in a real deck
only digit ranks reach that branch, and this model returns the usual decimal
value there. -/
def parseRankDigits (cs : List Char) : Nat :=
  cs.foldl (fun n c => n * 10 + (c.toNat - 48)) 0

/-- Python exceptions that the embedded code can raise.  `list.pop()` on an
empty list raises the builtin `IndexError`.  The spec postulates a distinct
`EmptyDeckError`; no such class exists anywhere in the repository, and the
constructor is present here only so that the spec's claim about it can be
stated and compared with what the code actually raises. -/
inductive PyExc
  | indexError
  | emptyDeckError
deriving DecidableEq, Repr

deriving instance DecidableEq for Except

/-- game.py `draw_card(deck)` is `return deck.pop()`: it removes and returns
the LAST element of the list, and on an empty list `pop` raises the builtin
`IndexError`. -/
def draw_card (deck : List Card) : Except PyExc (Card × List Card) :=
  match deck.getLast? with
  | none => Except.error PyExc.indexError
  | some c => Except.ok (c, deck.dropLast)

/-- The accumulation loop of game.py `hand_value` (lines 28-38): running
`(total, aces)` over the hand, adding 10 for J/Q/K, 11 (and one ace) for A,
and `int(rank)` otherwise.  `int(rank)` is modelled by `String.toNat?` with
default 0; every rank string occurring in a real deck ("2".."10") parses. -/
def initCount (hand : List Card) : Nat × Nat :=
  hand.foldl
    (fun acc card =>
      let rank := rankOf card
      if rank = ['J'] ∨ rank = ['Q'] ∨ rank = ['K'] then (acc.1 + 10, acc.2)
      else if rank = ['A'] then (acc.1 + 11, acc.2 + 1)
      else (acc.1 + parseRankDigits rank, acc.2))
    (0, 0)

/-- The demotion loop of game.py `hand_value` (lines 40-42):
`while total > 21 and aces: total -= 10; aces -= 1`.  Recursion is on the
ace counter, exactly the quantity the loop decrements. -/
def adjustAces : Nat → Nat → Nat × Nat
  | total, 0 => (total, 0)
  | total, a + 1 => if 21 < total then adjustAces (total - 10) a else (total, a + 1)

/-- game.py `hand_value(hand)`: accumulate, demote aces while busting, and
report `soft` iff some ace still counts as 11 (`is_soft = aces > 0`). -/
def hand_value (hand : List Card) : Nat × Bool :=
  let tc := initCount hand
  let ta := adjustAces tc.1 tc.2
  (ta.1, decide (0 < ta.2))

/-- game.py `is_blackjack(hand)`: exactly two cards totalling 21. -/
def is_blackjack (hand : List Card) : Bool :=
  hand.length == 2 && (hand_value hand).1 == 21

/-- Loop body of game.py `dealer_play` (lines 52-59), with an explicit fuel
argument bounding the number of iterations.  Each iteration either stops
(`total ≥ 17` and not a soft 17), raises `IndexError` through `draw_card`
on an empty deck, or consumes one card from the deck; hence any fuel
strictly larger than `deck.length` makes the fuel bound unreachable (see
`dealer_play_go_fuel_irrel`), and the fuel-0 value is arbitrary. -/
def dealer_play_go : Nat → List Card → List Card → Except PyExc (List Card × List Card)
  | 0, _, _ => Except.error PyExc.indexError
  | fuel + 1, hand, deck =>
    let v := hand_value hand
    if v.1 < 17 ∨ (v.1 = 17 ∧ v.2 = true) then
      match draw_card deck with
      | Except.error e => Except.error e
      | Except.ok (c, deck₂) => dealer_play_go fuel (hand ++ [c]) deck₂
    else Except.ok (hand, deck)

/-- game.py `dealer_play(hand, deck)`: draw while `total < 17` or
(`total == 17` and soft), then return the final hand (paired here with the
remaining deck, since the Python version mutates both in place). -/
def dealer_play (hand deck : List Card) : Except PyExc (List Card × List Card) :=
  dealer_play_go (deck.length + 1) hand deck

/-! ### Specification-level card values (for the C3 characterization)

These are written from the spec's wording (face cards count 10, each ace
initially 11) in a shape independent of the fold in `initCount`. -/

/-- Initial value of one card per the spec: face cards 10, ace 11, pip cards
their numeric rank. -/
def specCardValue (card : Card) : Nat :=
  if rankOf card = ['J'] ∨ rankOf card = ['Q'] ∨ rankOf card = ['K'] then 10
  else if rankOf card = ['A'] then 11
  else parseRankDigits (rankOf card)

/-- Pre-demotion hand total: the sum of the per-card initial values. -/
def specTotal (hand : List Card) : Nat :=
  (hand.map specCardValue).sum

/-- Number of aces in the hand. -/
def specAces (hand : List Card) : Nat :=
  (hand.filter (fun c => rankOf c = ['A'])).length

/-- How many 10-point demotions a pre-demotion total needs before it is ≤ 21
(unbounded by the ace count): 0 if already ≤ 21, else one per started 10
above 21. -/
def demotionsNeeded (total : Nat) : Nat :=
  if total ≤ 21 then 0 else (total - 22) / 10 + 1

/-- The demotions the loop actually performs: capped by the available aces. -/
def demotions (hand : List Card) : Nat :=
  min (specAces hand) (demotionsNeeded (specTotal hand))

/-! ### Lemmas about the card engine -/

/-- Closed form of the demotion loop: starting from total `t` with `a` aces,
the loop subtracts 10 exactly `min a (demotionsNeeded t)` times and leaves
the remaining aces. -/
theorem adjustAces_eq (a t : Nat) :
    adjustAces t a =
      (t - 10 * min a (demotionsNeeded t), a - min a (demotionsNeeded t)) := by
  induction a generalizing t with
  | zero => simp [adjustAces]
  | succ a ih =>
    rw [adjustAces]
    by_cases h : 21 < t
    · rw [if_pos h, ih (t - 10)]
      have hd : demotionsNeeded t = demotionsNeeded (t - 10) + 1 := by
        unfold demotionsNeeded
        rcases le_or_lt t 31 with h31 | h31
        · rw [if_neg (by omega), if_pos (by omega)]
          omega
        · rw [if_neg (by omega), if_neg (by omega)]
          omega
      rw [hd]
      simp only [Prod.mk.injEq]
      omega
    · rw [if_neg h]
      have ht : t ≤ 21 := by omega
      have hz : demotionsNeeded t = 0 := by simp [demotionsNeeded, ht]
      simp [hz]

/-- The fold in `initCount`, started from an arbitrary accumulator, adds the
spec-level total and ace count of the remaining hand. -/
theorem initCount_go (hand : List Card) : ∀ t a : Nat,
    List.foldl
      (fun acc card =>
        let rank := rankOf card
        if rank = ['J'] ∨ rank = ['Q'] ∨ rank = ['K'] then (acc.1 + 10, acc.2)
        else if rank = ['A'] then (acc.1 + 11, acc.2 + 1)
        else (acc.1 + parseRankDigits rank, acc.2))
      (t, a) hand
    = (t + specTotal hand, a + specAces hand) := by
  induction hand with
  | nil => simp [specTotal, specAces]
  | cons d ds ihd =>
    intro t a
    rw [List.foldl_cons]
    have hT : specTotal (d :: ds) = specCardValue d + specTotal ds := by
      simp [specTotal]
    by_cases hfd : rankOf d = ['J'] ∨ rankOf d = ['Q'] ∨ rankOf d = ['K']
    · have hAd : ¬ rankOf d = ['A'] := by
        rcases hfd with h | h | h <;> simp [h]
      have hv : specCardValue d = 10 := by
        simp [specCardValue, hfd]
      have hA : specAces (d :: ds) = specAces ds := by
        simp [specAces, hAd]
      simp only [if_pos hfd]
      rw [ihd, hT, hA, hv]
      simp only [Prod.mk.injEq, and_true]
      omega
    · by_cases hAd : rankOf d = ['A']
      · have hv : specCardValue d = 11 := by
          simp [specCardValue, hfd, hAd]
        have hA : specAces (d :: ds) = specAces ds + 1 := by
          simp [specAces, hAd]
        simp only [if_neg hfd, if_pos hAd]
        rw [ihd, hT, hA, hv]
        simp only [Prod.mk.injEq]
        omega
      · have hv : specCardValue d = parseRankDigits (rankOf d) := by
          simp [specCardValue, hfd, hAd]
        have hA : specAces (d :: ds) = specAces ds := by
          simp [specAces, hAd]
        simp only [if_neg hfd, if_neg hAd]
        rw [ihd, hT, hA, hv]
        simp only [Prod.mk.injEq, and_true]
        omega

/-- The fold in `initCount` computes the spec-level total and ace count. -/
theorem initCount_eq (hand : List Card) :
    initCount hand = (specTotal hand, specAces hand) := by
  unfold initCount
  rw [initCount_go hand 0 0]
  simp

/-- One drawn card shortens the deck: helper for fuel bookkeeping. -/
theorem draw_card_ok_length (deck deck₂ : List Card) (c : Card)
    (h : draw_card deck = Except.ok (c, deck₂)) :
    deck₂.length + 1 = deck.length := by
  unfold draw_card at h
  cases hl : deck.getLast? with
  | none => rw [hl] at h; cases h
  | some d =>
    rw [hl] at h
    have hne : deck ≠ [] := by
      intro hnil
      rw [hnil] at hl
      cases hl
    cases h
    have := List.length_dropLast deck
    have hpos : 0 < deck.length := List.length_pos.mpr hne
    omega

/-- The fuel argument of `dealer_play_go` is irrelevant as soon as it exceeds
the deck size: the loop runs out of cards (and stops or raises through
`draw_card`) before it can run out of fuel. -/
theorem dealer_play_go_fuel_irrel :
    ∀ (n : Nat) (deck : List Card), deck.length ≤ n →
    ∀ (f₁ f₂ : Nat) (hand : List Card), deck.length < f₁ → deck.length < f₂ →
      dealer_play_go f₁ hand deck = dealer_play_go f₂ hand deck := by
  intro n
  induction n with
  | zero =>
    intro deck hlen f₁ f₂ hand h₁ h₂
    have hnil : deck = [] := List.length_eq_zero.mp (by omega)
    subst hnil
    cases f₁ with
    | zero => omega
    | succ g₁ =>
      cases f₂ with
      | zero => omega
      | succ g₂ =>
        simp only [dealer_play_go, draw_card, List.getLast?]
  | succ n ih =>
    intro deck hlen f₁ f₂ hand h₁ h₂
    cases f₁ with
    | zero => omega
    | succ g₁ =>
      cases f₂ with
      | zero => omega
      | succ g₂ =>
        simp only [dealer_play_go]
        by_cases hc : (hand_value hand).1 < 17 ∨ ((hand_value hand).1 = 17 ∧ (hand_value hand).2 = true)
        · rw [if_pos hc, if_pos hc]
          cases hdc : draw_card deck with
          | error e => rfl
          | ok p =>
            obtain ⟨c, deck₂⟩ := p
            have hlen₂ : deck₂.length + 1 = deck.length := draw_card_ok_length deck deck₂ c hdc
            exact ih deck₂ (by omega) g₁ g₂ (hand ++ [c]) (by omega) (by omega)
        · rw [if_neg hc, if_neg hc]

/-- When the dealer policy says stop (total ≥ 17 and not a soft 17),
`dealer_play` draws nothing. -/
theorem dealer_play_stop (hand deck : List Card)
    (h : ¬ ((hand_value hand).1 < 17 ∨ ((hand_value hand).1 = 17 ∧ (hand_value hand).2 = true))) :
    dealer_play hand deck = Except.ok (hand, deck) := by
  unfold dealer_play
  simp only [dealer_play_go]
  rw [if_neg h]

/-- When the dealer policy says draw and the deck is non-empty, `dealer_play`
appends the drawn (last) card to the hand and continues on the shortened
deck. -/
theorem dealer_play_draw (hand deck : List Card) (c : Card)
    (hcond : (hand_value hand).1 < 17 ∨ ((hand_value hand).1 = 17 ∧ (hand_value hand).2 = true))
    (hl : deck.getLast? = some c) :
    dealer_play hand deck = dealer_play (hand ++ [c]) deck.dropLast := by
  unfold dealer_play
  conv_lhs => rw [dealer_play_go]
  rw [if_pos hcond]
  have hdc : draw_card deck = Except.ok (c, deck.dropLast) := by
    unfold draw_card
    rw [hl]
  rw [hdc]
  have hne : deck ≠ [] := by
    intro hnil
    rw [hnil] at hl
    cases hl
  have hpos : 0 < deck.length := List.length_pos.mpr hne
  have hdl := List.length_dropLast deck
  exact dealer_play_go_fuel_irrel deck.dropLast.length deck.dropLast le_rfl
    deck.length (deck.dropLast.length + 1) (hand ++ [c]) (by omega) (by omega)

/-! ## Claim theorems for the card engine -/

/-- C3: `hand_value` counts face cards as 10 and each ace as 11, then while
the total exceeds 21 and an ace still counts as 11 it subtracts 10 per
demoted ace; it returns the final total together with a soft flag that is
true iff some ace still counts as 11.  Stated as a closed form: the loop
performs `min aces (demotionsNeeded total)` demotions, and the hand is soft
iff aces remain undemoted.  In particular `hand_value [A♠, A♥, 9♣] =
(21, true)` and `hand_value [A♠, A♥, K♣] = (12, false)`. -/
theorem c3_hand_value_characterization :
    (∀ hand : List Card,
        hand_value hand =
          (specTotal hand - 10 * demotions hand,
            decide (demotions hand < specAces hand)))
    ∧ hand_value ["AS", "AH", "9C"] = (21, true)
    ∧ hand_value ["AS", "AH", "KC"] = (12, false) := by
  refine ⟨?_, by decide, by decide⟩
  intro hand
  unfold hand_value
  rw [initCount_eq]
  simp only
  rw [adjustAces_eq]
  unfold demotions
  have hiff :
      (0 < specAces hand - min (specAces hand) (demotionsNeeded (specTotal hand))) ↔
        (min (specAces hand) (demotionsNeeded (specTotal hand)) < specAces hand) := by
    omega
  simp [hiff]

/-- C5 (amended): `draw_card` on a non-empty deck removes and returns the top
(last) card; on an empty deck it fails with the builtin `IndexError` raised
by `list.pop` — the repository defines no `EmptyDeckError`, so the failure is
a defined Python exception but not the one the spec names. -/
theorem c5_draw_card_behavior :
    (∀ (deck : List Card) (hne : deck ≠ []),
        draw_card deck = Except.ok (deck.getLast hne, deck.dropLast))
    ∧ draw_card [] = Except.error PyExc.indexError := by
  constructor
  · intro deck hne
    unfold draw_card
    rw [List.getLast?_eq_getLast deck hne]
  · rfl

/-- C5 witness: the general non-empty clause of `c5_draw_card_behavior`
evaluated on a concrete two-card deck. -/
theorem c5_draw_card_behavior_witness :
    draw_card ["2H", "KS"] = Except.ok ("KS", ["2H"]) :=
  c5_draw_card_behavior.1 ["2H", "KS"] (by decide)

/-- C5 counterexample: the exhausted-deck failure is the builtin
`IndexError`, not the `EmptyDeckError` the claim names (no such error exists
in the code). -/
theorem c5_counterexample :
    draw_card [] ≠ Except.error PyExc.emptyDeckError ∧
    draw_card [] = Except.error PyExc.indexError := by
  constructor
  · intro h
    cases h
  · rfl

/-- C7: `dealer_play` draws exactly while the total is below 17 or the total
is exactly 17 and the hand is soft, and stops otherwise.  Conjuncts: the
general stop and draw behaviors, the hard-17 hand [10♠,7♣] drawing no card,
and the soft-17 hand [A♠,6♣] drawing (at least) one more card before
re-evaluating. -/
theorem c7_dealer_policy :
    (∀ hand deck : List Card,
        ¬ ((hand_value hand).1 < 17 ∨ ((hand_value hand).1 = 17 ∧ (hand_value hand).2 = true)) →
        dealer_play hand deck = Except.ok (hand, deck))
    ∧ (∀ (hand deck : List Card) (c : Card),
        ((hand_value hand).1 < 17 ∨ ((hand_value hand).1 = 17 ∧ (hand_value hand).2 = true)) →
        deck.getLast? = some c →
        dealer_play hand deck = dealer_play (hand ++ [c]) deck.dropLast)
    ∧ hand_value ["10S", "7C"] = (17, false)
    ∧ dealer_play ["10S", "7C"] ["2H", "3H"] = Except.ok (["10S", "7C"], ["2H", "3H"])
    ∧ hand_value ["AS", "6C"] = (17, true)
    ∧ dealer_play ["AS", "6C"] ["8H", "5H"] = Except.ok (["AS", "6C", "5H", "8H"], []) := by
  exact ⟨dealer_play_stop, dealer_play_draw, by decide, by decide, by decide, by decide⟩

/-- C7 witness: both general clauses of `c7_dealer_policy` evaluated on
concrete inputs — a hard 18 stands, a soft 17 draws the top card. -/
theorem c7_dealer_policy_witness :
    dealer_play ["10S", "8C"] ["2H"] = Except.ok (["10S", "8C"], ["2H"]) ∧
    dealer_play ["AS", "6C"] ["8H", "5H"] = dealer_play ["AS", "6C", "5H"] ["8H"] := by
  constructor
  · exact c7_dealer_policy.1 ["10S", "8C"] ["2H"] (by decide)
  · exact c7_dealer_policy.2.1 ["AS", "6C"] ["8H", "5H"] "5H" (by decide) (by decide)

/-! ## Matching store (src/db.py)

`tinder_swipes` rows carry (user_id, target_id, status); `tinder_matches`
rows carry (user_a, user_b).  The schema (db.py lines 205-226) declares no
UNIQUE constraint on either table beyond the autoincrement row ids, and the
only indexes on `tinder_matches` (db.py lines 387-388) are non-unique, so an
`INSERT OR IGNORE` into `tinder_matches` never has a uniqueness violation to
ignore and always inserts a row.  Per-user stat counters
(`increment_stat`) are not modelled; the claims here are about swipe and
match rows. -/

structure Swipe where
  user_id : Int
  target_id : Int
  status : String
deriving DecidableEq, Repr

/-- The two tables the matching store uses.  (`matches` is a reserved word
in Lean, so the `tinder_matches` rows live in the field `match_rows`.) -/
structure TinderDB where
  swipes : List Swipe
  match_rows : List (Int × Int)
deriving DecidableEq, Repr

/-- db.py `check_mutual_like(user_id, target_id)`: if a like-swipe from
`target_id` to `user_id` exists, run
`INSERT OR IGNORE INTO tinder_matches (user_a, user_b) VALUES (min, max)`
and return True, else return False.  Because `tinder_matches` has no unique
constraint on (user_a, user_b), the `OR IGNORE` clause never fires and the
insert is modelled as an unconditional append. -/
def check_mutual_like (db : TinderDB) (user_id target_id : Int) : TinderDB × Bool :=
  let recip := db.swipes.any fun s =>
    s.user_id == target_id && s.target_id == user_id && s.status == "like"
  if recip then
    ({ db with match_rows := db.match_rows ++ [(min user_id target_id, max user_id target_id)] }, true)
  else (db, false)

/-- db.py `mark_swipe(user_id, target_id, status)`: append a swipe row
(stat updates elided). -/
def mark_swipe (db : TinderDB) (user_id target_id : Int) (status : String) : TinderDB :=
  { db with swipes := db.swipes ++ [⟨user_id, target_id, status⟩] }

/-- db.py `mark_like_and_check`: record the like, then check for a mutual
match. -/
def mark_like_and_check (db : TinderDB) (user_id target_id : Int) : TinderDB × Bool :=
  check_mutual_like (mark_swipe db user_id target_id "like") user_id target_id

/-- The C1 scenario: target 2 has already liked actor 1, and the matches
table is empty. -/
def c1DB : TinderDB :=
  { swipes := [⟨2, 1, "like"⟩], match_rows := [] }

/-- C1: with a reciprocal like in place, `check_mutual_like 1 2` returns
true on both of two consecutive calls, but the second call inserts a
DUPLICATE (1, 2) row — the canonical pair ends up with two rows, not one,
because `tinder_matches` lacks a UNIQUE constraint for `INSERT OR IGNORE`
to act on.  This evaluates the code at the claim's failing input. -/
theorem c1_duplicate_match_row :
    (check_mutual_like c1DB 1 2).2 = true ∧
    (check_mutual_like (check_mutual_like c1DB 1 2).1 1 2).2 = true ∧
    ((check_mutual_like (check_mutual_like c1DB 1 2).1 1 2).1.match_rows.filter
        (fun p => p == ((1 : Int), (2 : Int)))).length = 2 := by
  decide

/-! ## Candidate selection (src/db.py `get_next_candidate`)

`run_query(city_filter)` builds the parameter list as
`[user_id, user_id] (+ [normalized_city] if the city clause is added)
 + [user_interest, user_interest, user_gender]`,
while the SQL text's placeholders appear in the order
`p.user_id != ?`, `s.user_id = ?`, `? = 'Any'`, `p.gender = ?`,
`p.interest = ?`, and — appended AFTER all of those — `p.normalized_city = ?`.
With the city clause present the third through sixth placeholders are
therefore bound one position off: the gender-filter test compares
`normalized_city` against 'Any', `p.gender` against `user_interest`,
`p.interest` against `user_interest`, and `p.normalized_city` against
`user_gender`.  Without the city clause the binding lines up with the
intent.  The embedding reproduces the binding exactly. -/

structure TProfile where
  user_id : Int
  age : Int
  gender : String
  interest : String
  city : String
  normalized_city : String
  name : String
  bio : String
  active : Bool
  updated_at : Nat
deriving DecidableEq, Repr

/-- The WHERE clause of the selection query with the placeholders already
bound: `b₃` feeds `? = 'Any'`, `b₄` feeds `p.gender = ?`, `b₅` feeds
`p.interest = ?` (as the right disjunct of `p.interest = 'Any' OR ...`),
and `cityEq`, when present, feeds `p.normalized_city = ?`. -/
def rowSelectable (swipes : List Swipe) (uid : Int) (b₃ b₄ b₅ : String)
    (cityEq : Option String) (p : TProfile) : Bool :=
  p.active && p.user_id != uid
    && !(swipes.any fun s => s.user_id == uid && s.target_id == p.user_id)
    && (b₃ == "Any" || p.gender == b₄)
    && (p.interest == "Any" || p.interest == b₅)
    && (match cityEq with
        | none => true
        | some v => p.normalized_city == v)

/-- `ORDER BY p.updated_at DESC LIMIT 1`: the first row with the maximal
`updated_at` (SQLite leaves the order of ties unspecified; the model keeps
the earliest-listed row among ties, which no claim depends on). -/
def topByUpdated (rows : List TProfile) : Option TProfile :=
  rows.foldl
    (fun acc p =>
      match acc with
      | none => some p
      | some q => if q.updated_at < p.updated_at then some p else some q)
    none

/-- db.py `run_query(city_filter)` inside `get_next_candidate`, with the
positional parameter binding of the source: when the city clause is present
(`city_filter and normalized_city`), the bound values are
`(normalized_city, user_interest, user_interest, user_gender)`; without it
they are `(user_interest, user_interest, user_gender, —)`. -/
def run_query (profiles : List TProfile) (swipes : List Swipe) (user_id : Int)
    (user_gender user_interest normalized_city : String) (city_filter : Bool) :
    Option TProfile :=
  if city_filter && normalized_city != "" then
    topByUpdated (profiles.filter
      (rowSelectable swipes user_id normalized_city user_interest user_interest (some user_gender)))
  else
    topByUpdated (profiles.filter
      (rowSelectable swipes user_id user_interest user_interest user_gender none))

/-- db.py `get_next_candidate`: city-scoped query first, then the same query
without the city restriction if the first returned nothing. -/
def get_next_candidate (profiles : List TProfile) (swipes : List Swipe) (user_id : Int)
    (user_gender user_interest normalized_city : String) : Option TProfile :=
  match run_query profiles swipes user_id user_gender user_interest normalized_city true with
  | some row => some row
  | none => run_query profiles swipes user_id user_gender user_interest normalized_city false

/-- Modelled from the spec: the locality-scoped selection query as §4.2
describes it — active, not the actor, not already swiped, actor's interest
filter `Any` or equal to the candidate's gender, candidate's interest `Any`
or equal to the actor's gender, and (when scoped) sharing the actor's
normalized locality.  This is the intended binding of the same WHERE
clause, kept for comparison with `run_query`. -/
def run_query_spec (profiles : List TProfile) (swipes : List Swipe) (user_id : Int)
    (user_gender user_interest normalized_city : String) (city_filter : Bool) :
    Option TProfile :=
  if city_filter && normalized_city != "" then
    topByUpdated (profiles.filter
      (rowSelectable swipes user_id user_interest user_interest user_gender (some normalized_city)))
  else
    topByUpdated (profiles.filter
      (rowSelectable swipes user_id user_interest user_interest user_gender none))

/-- Modelled from the spec: `next_candidate` with the intended locality-first
binding. -/
def get_next_candidate_spec (profiles : List TProfile) (swipes : List Swipe) (user_id : Int)
    (user_gender user_interest normalized_city : String) : Option TProfile :=
  match run_query_spec profiles swipes user_id user_gender user_interest normalized_city true with
  | some row => some row
  | none => run_query_spec profiles swipes user_id user_gender user_interest normalized_city false

/-- C8 failing input: a compatible candidate in the actor's own locality
(user 2, kyiv, older) and a compatible candidate elsewhere (user 3, lviv,
newer). -/
def c8LocalProfile : TProfile :=
  ⟨2, 25, "Female", "Any", "Kyiv", "kyiv", "B", "", true, 1⟩

def c8RemoteProfile : TProfile :=
  ⟨3, 26, "Female", "Any", "Lviv", "lviv", "C", "", true, 2⟩

/-- C8: the claim says the first query is restricted to candidates sharing
the actor's normalized locality, so with a compatible local candidate
present it would be returned.  The code's mis-bound city-scoped query
instead requires `p.normalized_city = user_gender` ("Male") and finds
nothing, and the unscoped fallback returns the newer remote candidate: the
code and the spec's described selection disagree on this input (the
spec-modelled selection returns the local profile 2, the code returns the
remote profile 3). -/
theorem c8_locality_binding_bug :
    get_next_candidate [c8LocalProfile, c8RemoteProfile] [] 1 "Male" "Female" "kyiv"
      = some c8RemoteProfile ∧
    get_next_candidate_spec [c8LocalProfile, c8RemoteProfile] [] 1 "Male" "Female" "kyiv"
      = some c8LocalProfile ∧
    c8RemoteProfile ≠ c8LocalProfile := by
  decide

/-! ## Blackjack session manager (src/db.py, src/handlers.py)

The `blackjack_sessions` table (db.py lines 361-368) has `user_id` as its
PRIMARY KEY; rows are modelled as (user_id, session) pairs.  The state a
round touches — the acting user's wallet balance, the `games_played` stat,
the sessions table and the `bj_pending` conversation flag — is bundled in
`BJState`.  `build_deck()` returns a uniformly shuffled 52-card deck; the
shuffle is modelled by passing the already-shuffled deck as an argument, and
the admin boost's random draw (`random.random() < boost` with `boost > 0`)
is modelled by the boolean `boostHit`. -/

structure BJSession where
  deck : List Card
  player_hand : List Card
  dealer_hand : List Card
  bet : Int
  status : String
deriving DecidableEq, Repr

structure BJState where
  balance : Int
  games_played : Nat
  sessions : List (Int × BJSession)
  bj_pending : Bool
deriving DecidableEq, Repr

/-- db.py `save_blackjack_session`: `INSERT ... ON CONFLICT(user_id) DO
UPDATE`.  Since `user_id` is the table's PRIMARY KEY, the conflict fires
exactly when a row for that user already exists; otherwise a fresh row is
appended. -/
def save_blackjack_session (tbl : List (Int × BJSession)) (user_id : Int) (s : BJSession) :
    List (Int × BJSession) :=
  if tbl.any (fun r => r.1 == user_id) then
    tbl.map (fun r => if r.1 == user_id then (user_id, s) else r)
  else tbl ++ [(user_id, s)]

/-- db.py `load_blackjack_session`: SELECT by user_id, None when absent. -/
def load_blackjack_session (tbl : List (Int × BJSession)) (user_id : Int) :
    Option BJSession :=
  (tbl.find? (fun r => r.1 == user_id)).map (fun r => r.2)

/-- db.py `clear_blackjack_session`: DELETE by user_id. -/
def clear_blackjack_session (tbl : List (Int × BJSession)) (user_id : Int) :
    List (Int × BJSession) :=
  tbl.filter (fun r => !(r.1 == user_id))

/-- Outcome reported by bet placement (handlers.handle_bet_selection). -/
inductive BetOutcome
  | betTooHigh
  | roundStarted
  | pushBlackjack
  | playerBlackjack
  | dealerBlackjack
  | deckError (e : PyExc)
deriving DecidableEq, Repr

/-- Outcome reported by round resolution (handlers.resolve_blackjack_outcome). -/
inductive ResolveOutcome
  | bust
  | dealerBust
  | playerWin
  | dealerWin
  | push
deriving DecidableEq, Repr

/-- Outcome reported by the hit / stand / double actions. -/
inductive ActionOutcome
  | noActiveGame
  | continueRound
  | bust
  | resolved (o : ResolveOutcome)
  | doubleNotAllowed
  | notEnoughPoints
  | deckErr (e : PyExc)
deriving DecidableEq, Repr

/-- The four opening draws of handlers.handle_bet_selection (lines
2541-2543): two cards to the player, then two to the dealer, each taken from
the top (end) of the shuffled deck. -/
def dealCards (shuffled : List Card) :
    Except PyExc ((List Card × List Card) × List Card) := do
  let (c₁, d₁) ← draw_card shuffled
  let (c₂, d₂) ← draw_card d₁
  let (c₃, d₃) ← draw_card d₂
  let (c₄, d₄) ← draw_card d₃
  pure (([c₁, c₂], [c₃, c₄]), d₄)

/-- handlers.handle_bet_selection: reject when `bet > balance`; otherwise
clear the pending flag, count the game, deal, debit the bet, upsert the
session, and settle naturals immediately (both natural → refund the bet;
player natural → credit 2×bet; dealer natural → nothing further).  On a
deal failure the Python exception propagates after the flag and stat
changes but before the debit and save. -/
def handle_bet_selection (uid : Int) (st : BJState) (bet : Int) (shuffled : List Card) :
    BJState × BetOutcome :=
  if bet > st.balance then (st, BetOutcome.betTooHigh)
  else
    let st₁ : BJState :=
      { st with bj_pending := false, games_played := st.games_played + 1 }
    match dealCards shuffled with
    | Except.error e => (st₁, BetOutcome.deckError e)
    | Except.ok ((player_hand, dealer_hand), deck) =>
      let st₂ : BJState :=
        { st₁ with
          balance := st₁.balance - bet
          sessions := save_blackjack_session st₁.sessions uid
            ⟨deck, player_hand, dealer_hand, bet, "active"⟩ }
      let player_bj := is_blackjack player_hand
      let dealer_bj := is_blackjack dealer_hand
      if player_bj && dealer_bj then
        ({ st₂ with
            balance := st₂.balance + bet
            sessions := clear_blackjack_session st₂.sessions uid },
          BetOutcome.pushBlackjack)
      else if player_bj then
        ({ st₂ with
            balance := st₂.balance + 2 * bet
            sessions := clear_blackjack_session st₂.sessions uid },
          BetOutcome.playerBlackjack)
      else if dealer_bj then
        ({ st₂ with sessions := clear_blackjack_session st₂.sessions uid },
          BetOutcome.dealerBlackjack)
      else (st₂, BetOutcome.roundStarted)

/-- handlers.resolve_blackjack_outcome: settle a finished round.  `boostHit`
stands for `boost > 0 and random.random() < boost`; the remaining boost
conditions (player not bust, dealer between the player total and 21) are
taken from the source.  Payouts: bust → nothing; (forced) dealer bust or
higher player total → 2×bet; dealer higher → nothing; tie → bet refunded.
The session row is deleted at the end. -/
def resolve_blackjack_outcome (uid : Int) (st : BJState)
    (player_hand dealer_hand : List Card) (bet : Int) (boostHit : Bool) :
    BJState × ResolveOutcome :=
  let player_total := (hand_value player_hand).1
  let dealer_total := (hand_value dealer_hand).1
  let forced_dealer_bust :=
    boostHit && player_total ≤ 21 && dealer_total ≥ player_total && dealer_total ≤ 21
  let cleared := clear_blackjack_session st.sessions uid
  if player_total > 21 then
    ({ st with sessions := cleared }, ResolveOutcome.bust)
  else if forced_dealer_bust || dealer_total > 21 then
    ({ st with balance := st.balance + 2 * bet, sessions := cleared },
      ResolveOutcome.dealerBust)
  else if player_total > dealer_total then
    ({ st with balance := st.balance + 2 * bet, sessions := cleared },
      ResolveOutcome.playerWin)
  else if dealer_total > player_total then
    ({ st with sessions := cleared }, ResolveOutcome.dealerWin)
  else
    ({ st with balance := st.balance + bet, sessions := cleared },
      ResolveOutcome.push)

/-- handlers.blackjack_hit: no stored session → report and change nothing;
otherwise draw one card to the player hand, save, and resolve as a bust when
the new total exceeds 21. -/
def blackjack_hit (uid : Int) (st : BJState) : BJState × ActionOutcome :=
  match load_blackjack_session st.sessions uid with
  | none => (st, ActionOutcome.noActiveGame)
  | some s =>
    match draw_card s.deck with
    | Except.error e => (st, ActionOutcome.deckErr e)
    | Except.ok (c, deck) =>
      let player_hand := s.player_hand ++ [c]
      let st₁ : BJState :=
        { st with
          sessions := save_blackjack_session st.sessions uid
            ⟨deck, player_hand, s.dealer_hand, s.bet, "active"⟩ }
      if (hand_value player_hand).1 > 21 then
        ({ st₁ with sessions := clear_blackjack_session st₁.sessions uid },
          ActionOutcome.bust)
      else (st₁, ActionOutcome.continueRound)

/-- handlers.blackjack_stand: no stored session → report and change nothing;
otherwise the dealer auto-plays and the round is resolved. -/
def blackjack_stand (uid : Int) (st : BJState) (boostHit : Bool) :
    BJState × ActionOutcome :=
  match load_blackjack_session st.sessions uid with
  | none => (st, ActionOutcome.noActiveGame)
  | some s =>
    match dealer_play s.dealer_hand s.deck with
    | Except.error e => (st, ActionOutcome.deckErr e)
    | Except.ok (dealer_hand, _) =>
      let r := resolve_blackjack_outcome uid st s.player_hand dealer_hand s.bet boostHit
      (r.1, ActionOutcome.resolved r.2)

/-- handlers.blackjack_double: no stored session → report and change
nothing; a hand of other than two cards or a balance below the bet →
rejected; otherwise debit a second bet, double the recorded bet, draw one
card, and either bust or let the dealer play and resolve. -/
def blackjack_double (uid : Int) (st : BJState) (boostHit : Bool) :
    BJState × ActionOutcome :=
  match load_blackjack_session st.sessions uid with
  | none => (st, ActionOutcome.noActiveGame)
  | some s =>
    if s.player_hand.length != 2 then (st, ActionOutcome.doubleNotAllowed)
    else if st.balance < s.bet then (st, ActionOutcome.notEnoughPoints)
    else
      let st₁ : BJState := { st with balance := st.balance - s.bet }
      let bet := s.bet * 2
      match draw_card s.deck with
      | Except.error e => (st₁, ActionOutcome.deckErr e)
      | Except.ok (c, deck) =>
        let player_hand := s.player_hand ++ [c]
        if (hand_value player_hand).1 > 21 then
          ({ st₁ with sessions := clear_blackjack_session st₁.sessions uid },
            ActionOutcome.bust)
        else
          match dealer_play s.dealer_hand deck with
          | Except.error e => (st₁, ActionOutcome.deckErr e)
          | Except.ok (dealer_hand, _) =>
            let st₂ : BJState :=
              { st₁ with sessions := clear_blackjack_session st₁.sessions uid }
            let r := resolve_blackjack_outcome uid st₂ player_hand dealer_hand bet boostHit
            (r.1, ActionOutcome.resolved r.2)

/-- Python `str.isdigit` restricted to ASCII digits (the strings the bot's
bet keyboard produces): non-empty and all decimal digits. -/
def str_isdigit (text : String) : Bool :=
  text.length != 0 && text.toList.all Char.isDigit

/-- Routing result of the quick-keyboard text handler's bet branch. -/
inductive TextRoute
  | betPlaced (o : BetOutcome)
  | invalidBet
  | notPending
deriving DecidableEq, Repr

/-- handlers.handle_quick_menu (lines 2344-2349): while `bj_pending` is set,
a digit-only message is parsed with `int(...)` and placed as a bet, and any
other text is rejected with a "bet_invalid" message; nothing else of the
quick-menu routing is relevant to bets. -/
def quick_bet_route (uid : Int) (st : BJState) (text : String) (shuffled : List Card) :
    BJState × TextRoute :=
  if st.bj_pending then
    if str_isdigit text then
      let r := handle_bet_selection uid st (Int.ofNat (parseRankDigits text.toList)) shuffled
      (r.1, TextRoute.betPlaced r.2)
    else (st, TextRoute.invalidBet)
  else (st, TextRoute.notPending)

/-- At most one `blackjack_sessions` row per user. -/
def atMostOneSession (tbl : List (Int × BJSession)) : Prop :=
  ∀ uid : Int, (tbl.filter (fun r => r.1 == uid)).length ≤ 1

/-! ### Session-table lemmas -/

/-- The upsert's UPDATE arm rewrites values but never keys, so per-key row
counts are unchanged. -/
theorem filter_save_map_len (uid u : Int) (s : BJSession) (tbl : List (Int × BJSession)) :
    ((tbl.map (fun r => if r.1 == uid then (uid, s) else r)).filter
        (fun r => r.1 == u)).length
      = (tbl.filter (fun r => r.1 == u)).length := by
  rw [← List.countP_eq_length_filter, ← List.countP_eq_length_filter, List.countP_map]
  apply List.countP_congr
  intro r hr
  by_cases h : r.1 = uid
  · simp [Function.comp, h]
  · simp [Function.comp, h]

/-- Upserting a session preserves the at-most-one-row-per-user invariant. -/
theorem save_preserves_atMostOne (tbl : List (Int × BJSession)) (uid : Int)
    (s : BJSession) (h : atMostOneSession tbl) :
    atMostOneSession (save_blackjack_session tbl uid s) := by
  intro u
  unfold save_blackjack_session
  by_cases he : tbl.any (fun r => r.1 == uid)
  · rw [if_pos he, filter_save_map_len]
    exact h u
  · rw [if_neg he, List.filter_append, List.length_append]
    have hfalse : tbl.any (fun r => r.1 == uid) = false := Bool.eq_false_iff.mpr he
    by_cases hu : uid = u
    · have h0 : (tbl.filter (fun r => r.1 == u)).length = 0 := by
        rw [List.length_eq_zero, List.filter_eq_nil_iff]
        intro a ha
        have := (List.any_eq_false.mp hfalse) a ha
        subst hu
        simpa using this
      have h1 : (([(uid, s)] : List (Int × BJSession)).filter
          (fun r => r.1 == u)).length ≤ 1 := by
        apply le_trans (List.length_filter_le _ _)
        simp
      omega
    · have hbu : (uid == u) = false := by simp [hu]
      have h1 : (([(uid, s)] : List (Int × BJSession)).filter
          (fun r => r.1 == u)) = [] := by
        simp [List.filter_cons, hbu]
      rw [h1]
      simpa using h u

/-- Deleting a user's session row preserves the invariant. -/
theorem clear_preserves_atMostOne (tbl : List (Int × BJSession)) (uid : Int)
    (h : atMostOneSession tbl) :
    atMostOneSession (clear_blackjack_session tbl uid) := by
  intro u
  have hsub : List.Sublist
      ((clear_blackjack_session tbl uid).filter (fun r => r.1 == u))
      (tbl.filter (fun r => r.1 == u)) :=
    List.Sublist.filter _ (List.filter_sublist tbl)
  exact le_trans hsub.length_le (h u)

/-- Normal (non-natural) bet placement: when the bet is within the balance,
the deal succeeds and neither opening hand is a natural 21, the handler
debits the bet, counts the game, clears the pending flag, upserts the fresh
session, and reports a started round — without consulting the sessions
table beforehand. -/
theorem handle_bet_selection_roundStarted (uid : Int) (st : BJState) (bet : Int)
    (shuffled ph dh deck : List Card)
    (hb : ¬ bet > st.balance) (hd : dealCards shuffled = Except.ok ((ph, dh), deck))
    (hpb : is_blackjack ph = false) (hdb : is_blackjack dh = false) :
    handle_bet_selection uid st bet shuffled =
      ({ balance := st.balance - bet
         games_played := st.games_played + 1
         sessions := save_blackjack_session st.sessions uid ⟨deck, ph, dh, bet, "active"⟩
         bj_pending := false }, BetOutcome.roundStarted) := by
  unfold handle_bet_selection
  rw [if_neg hb, hd]
  simp [hpb, hdb]

/-- Bet placement keeps at most one session row per user, whatever branch it
takes. -/
theorem handle_bet_preserves_atMostOne (uid : Int) (st : BJState) (bet : Int)
    (shuffled : List Card) (h : atMostOneSession st.sessions) :
    atMostOneSession (handle_bet_selection uid st bet shuffled).1.sessions := by
  unfold handle_bet_selection
  by_cases hb : bet > st.balance
  · rw [if_pos hb]
    exact h
  · rw [if_neg hb]
    cases hd : dealCards shuffled with
    | error e => exact h
    | ok res =>
      obtain ⟨⟨ph, dh⟩, deck⟩ := res
      have hsave := save_preserves_atMostOne st.sessions uid
        ⟨deck, ph, dh, bet, "active"⟩ h
      by_cases hpb : is_blackjack ph = true <;> by_cases hdb : is_blackjack dh = true <;>
        simp only [hpb, hdb, Bool.and_self, Bool.and_true, Bool.and_false,
          Bool.true_and, Bool.false_and, if_true, if_false,
          Bool.false_eq_true, Bool.not_eq_true] <;>
      first
        | exact clear_preserves_atMostOne _ uid hsave
        | exact hsave
      

/-- Resolution arithmetic of handlers.resolve_blackjack_outcome with no
boost: dealer bust or a higher player total credits 2×bet, a tie refunds
the bet, a higher dealer total credits nothing. -/
theorem resolve_balance_cases (uid : Int) (st : BJState) (ph dh : List Card)
    (bet : Int) (hpt : (hand_value ph).1 ≤ 21) :
    ((hand_value dh).1 > 21 ∨ (hand_value ph).1 > (hand_value dh).1 →
      (resolve_blackjack_outcome uid st ph dh bet false).1.balance = st.balance + 2 * bet)
    ∧ ((hand_value dh).1 ≤ 21 ∧ (hand_value dh).1 = (hand_value ph).1 →
      (resolve_blackjack_outcome uid st ph dh bet false).1.balance = st.balance + bet)
    ∧ ((hand_value dh).1 ≤ 21 ∧ (hand_value dh).1 > (hand_value ph).1 →
      (resolve_blackjack_outcome uid st ph dh bet false).1.balance = st.balance) := by
  unfold resolve_blackjack_outcome
  simp only [Bool.false_and, Bool.false_or]
  rw [if_neg (by omega : ¬ (hand_value ph).1 > 21)]
  refine ⟨?_, ?_, ?_⟩
  · intro hwin
    rcases hwin with hdb | hgt
    · rw [if_pos (by simpa using hdb)]
    · rw [if_neg (by simpa using (by omega : ¬ (hand_value dh).1 > 21)),
        if_pos hgt]
  · intro ⟨hdle, heq⟩
    rw [if_neg (by simpa using (by omega : ¬ (hand_value dh).1 > 21)),
      if_neg (by omega : ¬ (hand_value ph).1 > (hand_value dh).1),
      if_neg (by omega : ¬ (hand_value dh).1 > (hand_value ph).1)]
  · intro ⟨hdle, hgt⟩
    rw [if_neg (by simpa using (by omega : ¬ (hand_value dh).1 > 21)),
      if_neg (by omega : ¬ (hand_value ph).1 > (hand_value dh).1),
      if_pos hgt]

/-- C2: placing a bet `b ≤ B` debits `b` immediately (balance `B - b` while
the round runs), and resolution credits 2×b on a player win (dealer bust or
higher player total), b on a push, and nothing on a dealer win — so a full
round moves the balance to B + b, B, or B - b.  The three concrete
conjuncts replay the spec's instance B = 100, b = 10 end to end (bet
placement followed by an immediate stand): player 19 vs dealer 18 → 110,
19 vs 19 → 100, 18 vs 19 → 90. -/
theorem c2_bet_debit_and_payout :
    (∀ (uid : Int) (st : BJState) (bet : Int) (shuffled ph dh deck : List Card),
        ¬ bet > st.balance → dealCards shuffled = Except.ok ((ph, dh), deck) →
        is_blackjack ph = false → is_blackjack dh = false →
        (handle_bet_selection uid st bet shuffled).1.balance = st.balance - bet ∧
        (handle_bet_selection uid st bet shuffled).2 = BetOutcome.roundStarted)
    ∧ (∀ (uid : Int) (st : BJState) (ph dh : List Card) (bet : Int),
        (hand_value ph).1 ≤ 21 →
        ((hand_value dh).1 > 21 ∨ (hand_value ph).1 > (hand_value dh).1 →
          (resolve_blackjack_outcome uid st ph dh bet false).1.balance
            = st.balance + 2 * bet) ∧
        ((hand_value dh).1 ≤ 21 ∧ (hand_value dh).1 = (hand_value ph).1 →
          (resolve_blackjack_outcome uid st ph dh bet false).1.balance
            = st.balance + bet) ∧
        ((hand_value dh).1 ≤ 21 ∧ (hand_value dh).1 > (hand_value ph).1 →
          (resolve_blackjack_outcome uid st ph dh bet false).1.balance = st.balance))
    ∧ (blackjack_stand 7
        (handle_bet_selection 7 ⟨100, 0, [], true⟩ 10 ["8D", "10C", "9S", "10H"]).1
        false).1.balance = 110
    ∧ (blackjack_stand 7
        (handle_bet_selection 7 ⟨100, 0, [], true⟩ 10 ["9D", "10C", "9S", "10H"]).1
        false).1.balance = 100
    ∧ (blackjack_stand 7
        (handle_bet_selection 7 ⟨100, 0, [], true⟩ 10 ["9D", "10C", "8S", "10H"]).1
        false).1.balance = 90 := by
  refine ⟨?_, ?_, by decide, by decide, by decide⟩
  · intro uid st bet shuffled ph dh deck hb hd hpb hdb
    rw [handle_bet_selection_roundStarted uid st bet shuffled ph dh deck hb hd hpb hdb]
    exact ⟨rfl, rfl⟩
  · intro uid st ph dh bet hpt
    exact resolve_balance_cases uid st ph dh bet hpt

/-- C2 witness: the debit clause and all three resolution clauses of
`c2_bet_debit_and_payout` evaluated on concrete hands and the spec's
100-point wallet. -/
theorem c2_bet_debit_and_payout_witness :
    (handle_bet_selection 7 ⟨100, 0, [], true⟩ 10 ["8D", "10C", "9S", "10H"]).1.balance
        = 100 - 10
    ∧ (resolve_blackjack_outcome 7 ⟨90, 1, [], false⟩ ["10H", "9S"] ["10C", "8D"]
        10 false).1.balance = 90 + 2 * 10
    ∧ (resolve_blackjack_outcome 7 ⟨90, 1, [], false⟩ ["10H", "9S"] ["10C", "9D"]
        10 false).1.balance = 90 + 10
    ∧ (resolve_blackjack_outcome 7 ⟨90, 1, [], false⟩ ["10H", "8S"] ["10C", "9D"]
        10 false).1.balance = 90 := by
  refine ⟨?_, ?_, ?_, ?_⟩
  · exact (c2_bet_debit_and_payout.1 7 ⟨100, 0, [], true⟩ 10 ["8D", "10C", "9S", "10H"]
      ["10H", "9S"] ["10C", "8D"] [] (by decide) (by decide) (by decide) (by decide)).1
  · exact (c2_bet_debit_and_payout.2.1 7 ⟨90, 1, [], false⟩ ["10H", "9S"] ["10C", "8D"]
      10 (by decide)).1 (by decide)
  · exact (c2_bet_debit_and_payout.2.1 7 ⟨90, 1, [], false⟩ ["10H", "9S"] ["10C", "9D"]
      10 (by decide)).2.1 (by decide)
  · exact (c2_bet_debit_and_payout.2.1 7 ⟨90, 1, [], false⟩ ["10H", "8S"] ["10C", "9D"]
      10 (by decide)).2.2 (by decide)

/-- C10: with no stored blackjack session, hit, stand and double all report
"no active game" and return the state exactly as it was — no draw, no
debit, no payout, no session write. -/
theorem c10_stale_action_noop :
    ∀ (uid : Int) (st : BJState) (boostHit : Bool),
      load_blackjack_session st.sessions uid = none →
      blackjack_hit uid st = (st, ActionOutcome.noActiveGame) ∧
      blackjack_stand uid st boostHit = (st, ActionOutcome.noActiveGame) ∧
      blackjack_double uid st boostHit = (st, ActionOutcome.noActiveGame) := by
  intro uid st boostHit h
  refine ⟨?_, ?_, ?_⟩
  · unfold blackjack_hit
    rw [h]
  · unfold blackjack_stand
    rw [h]
  · unfold blackjack_double
    rw [h]

/-- C10 witness: all three stale actions on a concrete empty sessions
table. -/
theorem c10_stale_action_noop_witness :
    blackjack_hit 7 ⟨50, 3, [], false⟩ = (⟨50, 3, [], false⟩, ActionOutcome.noActiveGame) ∧
    blackjack_stand 7 ⟨50, 3, [], false⟩ false = (⟨50, 3, [], false⟩, ActionOutcome.noActiveGame) ∧
    blackjack_double 7 ⟨50, 3, [], false⟩ false = (⟨50, 3, [], false⟩, ActionOutcome.noActiveGame) :=
  c10_stale_action_noop 7 ⟨50, 3, [], false⟩ false (by decide)

/-- A live, unresolved session used by the C4 scenario. -/
def c4Session : BJSession := ⟨["2H"], ["10H", "7S"], ["9C", "5D"], 5, "active"⟩

/-- A state in which user 7 still has that unresolved session stored. -/
def c4St : BJState := ⟨100, 1, [(7, c4Session)], false⟩

/-- C4 counterexample: a bet-placement action arriving while an unresolved
session exists DOES start a new round — `handle_bet_selection` never
consults the sessions table, so it reports a started round, debits the new
bet (100 → 90), and overwrites the stored session, orphaning the old bet. -/
theorem c4_counterexample :
    load_blackjack_session c4St.sessions 7 = some c4Session ∧
    (handle_bet_selection 7 c4St 10 ["8D", "10C", "9S", "10H"]).2
        = BetOutcome.roundStarted ∧
    load_blackjack_session
        (handle_bet_selection 7 c4St 10 ["8D", "10C", "9S", "10H"]).1.sessions 7
      ≠ some c4Session ∧
    (handle_bet_selection 7 c4St 10 ["8D", "10C", "9S", "10H"]).1.balance = 90 := by
  decide

/-- C4 (amended): at most one stored blackjack session per user holds at all
times — the sessions table is keyed by user_id and every write is an upsert
or delete, each preserving the at-most-one-row invariant — but bet placement
is NOT gated on the previous session being resolved: `handle_bet_selection`
validates only the balance, so a bet arriving while an unresolved session
exists starts a new round and overwrites that session. -/
theorem c4_single_session_ungated_bet :
    (∀ (tbl : List (Int × BJSession)) (uid : Int) (s : BJSession),
        atMostOneSession tbl → atMostOneSession (save_blackjack_session tbl uid s))
    ∧ (∀ (tbl : List (Int × BJSession)) (uid : Int),
        atMostOneSession tbl → atMostOneSession (clear_blackjack_session tbl uid))
    ∧ (∀ (uid : Int) (st : BJState) (bet : Int) (shuffled : List Card),
        atMostOneSession st.sessions →
        atMostOneSession (handle_bet_selection uid st bet shuffled).1.sessions)
    ∧ (∀ (uid : Int) (st : BJState) (bet : Int) (shuffled ph dh deck : List Card),
        ¬ bet > st.balance → dealCards shuffled = Except.ok ((ph, dh), deck) →
        is_blackjack ph = false → is_blackjack dh = false →
        (handle_bet_selection uid st bet shuffled).2 = BetOutcome.roundStarted ∧
        (handle_bet_selection uid st bet shuffled).1.sessions
          = save_blackjack_session st.sessions uid ⟨deck, ph, dh, bet, "active"⟩) := by
  refine ⟨save_preserves_atMostOne, clear_preserves_atMostOne,
    handle_bet_preserves_atMostOne, ?_⟩
  intro uid st bet shuffled ph dh deck hb hd hpb hdb
  rw [handle_bet_selection_roundStarted uid st bet shuffled ph dh deck hb hd hpb hdb]
  exact ⟨rfl, rfl⟩

/-- C4 witness: the invariant-preservation clauses and the ungated-bet
clause of `c4_single_session_ungated_bet` evaluated on the concrete state
that still holds an unresolved session. -/
theorem c4_single_session_ungated_bet_witness :
    atMostOneSession (handle_bet_selection 7 c4St 10 ["8D", "10C", "9S", "10H"]).1.sessions ∧
    (handle_bet_selection 7 c4St 10 ["8D", "10C", "9S", "10H"]).2 = BetOutcome.roundStarted := by
  have hone : atMostOneSession c4St.sessions := by
    intro u
    exact le_trans (List.length_filter_le _ _) (by simp [c4St])
  constructor
  · exact c4_single_session_ungated_bet.2.2.1 7 c4St 10 ["8D", "10C", "9S", "10H"] hone
  · exact (c4_single_session_ungated_bet.2.2.2 7 c4St 10 ["8D", "10C", "9S", "10H"]
      ["10H", "9S"] ["10C", "8D"] [] (by decide) (by decide) (by decide) (by decide)).1

/-- C6 counterexample: a zero bet is NOT rejected.  With `bj_pending` set
and a 100-point balance, the text "0" passes the digit check, and
`handle_bet_selection 0` starts a round with bet 0 (the only validation is
`bet > balance`): the stored session carries bet 0 and the round is live. -/
theorem c6_counterexample :
    str_isdigit "0" = true ∧
    (quick_bet_route 7 ⟨100, 0, [], true⟩ "0" ["8D", "10C", "9S", "10H"]).2
        = TextRoute.betPlaced BetOutcome.roundStarted ∧
    load_blackjack_session
        (quick_bet_route 7 ⟨100, 0, [], true⟩ "0" ["8D", "10C", "9S", "10H"]).1.sessions 7
      = some ⟨[], ["10H", "9S"], ["10C", "8D"], 0, "active"⟩ := by
  decide

/-- C6 (amended): bet placement validates only `amount ≤ balance`.  An
amount exceeding the balance is rejected with a user-visible message and no
state change; a non-digit text (which covers every negative amount) is
rejected by the digit gate without starting a round; but zero passes the
digit gate and starts a zero-bet round — the strict positivity the claim
asserts is not checked anywhere. -/
theorem c6_bet_validation :
    (∀ (uid : Int) (st : BJState) (bet : Int) (shuffled : List Card),
        bet > st.balance →
        handle_bet_selection uid st bet shuffled = (st, BetOutcome.betTooHigh))
    ∧ (∀ (uid : Int) (st : BJState) (text : String) (shuffled : List Card),
        st.bj_pending = true → str_isdigit text = false →
        quick_bet_route uid st text shuffled = (st, TextRoute.invalidBet))
    ∧ (quick_bet_route 7 ⟨100, 0, [], true⟩ "0" ["8D", "10C", "9S", "10H"]).2
        = TextRoute.betPlaced BetOutcome.roundStarted := by
  refine ⟨?_, ?_, by decide⟩
  · intro uid st bet shuffled hb
    unfold handle_bet_selection
    rw [if_pos hb]
  · intro uid st text shuffled hp hd
    unfold quick_bet_route
    rw [hp, if_pos rfl, hd]
    rfl

/-- C6 witness: the over-balance clause (bet 200 against balance 100) and
the non-digit clause (text "abc") of `c6_bet_validation` on concrete
inputs. -/
theorem c6_bet_validation_witness :
    handle_bet_selection 7 ⟨100, 0, [], true⟩ 200 ["8D", "10C", "9S", "10H"]
        = (⟨100, 0, [], true⟩, BetOutcome.betTooHigh) ∧
    quick_bet_route 7 ⟨100, 0, [], true⟩ "abc" ["8D", "10C", "9S", "10H"]
        = (⟨100, 0, [], true⟩, TextRoute.invalidBet) := by
  constructor
  · exact c6_bet_validation.1 7 ⟨100, 0, [], true⟩ 200 ["8D", "10C", "9S", "10H"]
      (by decide)
  · exact c6_bet_validation.2.1 7 ⟨100, 0, [], true⟩ "abc" ["8D", "10C", "9S", "10H"]
      (by decide) (by decide)

/-! ## Profile-builder guided flow — the age step (src/handlers.py)

The conversation flow holds collected values in `context.user_data` (the
FlowDraft) and identifies steps by the numeric conversation states of
config.py (`TINDER_AGE = 5`, `TINDER_GENDER = 6`, ...).  Durable storage —
the `tinder_profiles` table — is written only by `db.upsert_profile`, which
the step handlers never call; `tinder_age` is modelled with the profiles
table threaded through so that "no profile row is written" is visible in
its type. -/

def TINDER_AGE : Nat := 5

def TINDER_GENDER : Nat := 6

/-- The slice of the FlowDraft the age step touches. -/
structure TinderDraft where
  tinder_age : Option Nat := none
deriving DecidableEq, Repr

/-- The replies the age step can emit. -/
inductive AgeReply
  | ageNotNumber
  | ageInvalid
  | genderPrompt
deriving DecidableEq, Repr

/-- Python `str.strip()` on the character list: whitespace removed from both
ends. -/
def pyStrip (cs : List Char) : List Char :=
  ((cs.dropWhile Char.isWhitespace).reverse.dropWhile Char.isWhitespace).reverse

/-- `str.isdigit` on a character list (ASCII digits): non-empty and all
decimal digits. -/
def isdigitChars (cs : List Char) : Bool :=
  cs != [] && cs.all Char.isDigit

/-- handlers.tinder_age (lines 1417-1437): strip the message text; a
non-digit text re-prompts with "age_not_number" and stays at TINDER_AGE; a
digit text outside 18..120 re-prompts with "age_invalid" and stays at
TINDER_AGE; otherwise the age is stored in the draft and the flow advances
to TINDER_GENDER.  The profiles table is returned untouched on every path
(the handler performs no database write). -/
def tinder_age (profiles : List TProfile) (draft : TinderDraft) (text : String) :
    List TProfile × TinderDraft × Nat × AgeReply :=
  let stripped := pyStrip text.toList
  if !(isdigitChars stripped) then
    (profiles, draft, TINDER_AGE, AgeReply.ageNotNumber)
  else
    let age := parseRankDigits stripped
    if age < 18 || age > 120 then
      (profiles, draft, TINDER_AGE, AgeReply.ageInvalid)
    else
      (profiles, { draft with tinder_age := some age }, TINDER_GENDER,
        AgeReply.genderPrompt)

/-- C9: every input that fails the age validator leaves the flow at the same
step with the matching re-prompt, the draft unchanged, and the durable
profiles table unchanged; moreover the age step never writes the profiles
table on ANY input (the write happens only in the terminal save step,
`tinder_save_cb`, which is not reachable from a failed validation).  The
concrete conjunct is the spec's "abc" instance. -/
theorem c9_age_step_no_partial_commit :
    (∀ (profiles : List TProfile) (draft : TinderDraft) (text : String),
        isdigitChars (pyStrip text.toList) = false →
        tinder_age profiles draft text
          = (profiles, draft, TINDER_AGE, AgeReply.ageNotNumber))
    ∧ (∀ (profiles : List TProfile) (draft : TinderDraft) (text : String),
        isdigitChars (pyStrip text.toList) = true →
        (parseRankDigits (pyStrip text.toList) < 18 ∨
          parseRankDigits (pyStrip text.toList) > 120) →
        tinder_age profiles draft text
          = (profiles, draft, TINDER_AGE, AgeReply.ageInvalid))
    ∧ (∀ (profiles : List TProfile) (draft : TinderDraft) (text : String),
        (tinder_age profiles draft text).1 = profiles)
    ∧ tinder_age [c8LocalProfile] ⟨none⟩ "abc"
        = ([c8LocalProfile], ⟨none⟩, TINDER_AGE, AgeReply.ageNotNumber) := by
  refine ⟨?_, ?_, ?_, by decide⟩
  · intro profiles draft text hd
    have hd₂ : isdigitChars (pyStrip text.data) = false := hd
    unfold tinder_age
    simp [hd₂]
  · intro profiles draft text hd hrange
    have hd₂ : isdigitChars (pyStrip text.data) = true := hd
    have hrange₂ : parseRankDigits (pyStrip text.data) < 18 ∨
        120 < parseRankDigits (pyStrip text.data) := by
      rcases hrange with h | h
      · exact Or.inl h
      · exact Or.inr h
    unfold tinder_age
    simp [hd₂, hrange₂]
  · intro profiles draft text
    unfold tinder_age
    simp only
    split
    · rfl
    · split
      · rfl
      · rfl

/-- C9 witness: both failure clauses of `c9_age_step_no_partial_commit` on
concrete inputs — the non-numeric "abc" and the out-of-range "12". -/
theorem c9_age_step_no_partial_commit_witness :
    tinder_age [] ⟨none⟩ "abc" = ([], ⟨none⟩, TINDER_AGE, AgeReply.ageNotNumber) ∧
    tinder_age [] ⟨none⟩ "12" = ([], ⟨none⟩, TINDER_AGE, AgeReply.ageInvalid) := by
  constructor
  · exact c9_age_step_no_partial_commit.1 [] ⟨none⟩ "abc" (by decide)
  · exact c9_age_step_no_partial_commit.2.1 [] ⟨none⟩ "12" (by decide) (by decide)
